import Mathlib

/-!
Shallow embedding of the universal-data-source daemon (Rust) for
specification checking.

Conventions used throughout:
* `f64` values are modelled as exact rationals (`ℚ`); only finite decimal
  literals are modelled by the numeric parser (the `inf`/`nan` spellings of
  floats are outside the model).
* `HashMap<String, V>` is modelled by its lookup function `String → Option V`;
  `insert` is `Function.update`.
* Durations are natural numbers in a fixed unit (seconds for the NUT
  connection manager, milliseconds for the active sender), with the caps
  `3600` s and `1000` ms from the source.
* Stateful loops are modelled by explicit state passing over a list of
  environment events (connect outcomes, notification arrival times, device
  read results).
-/

namespace UDS

/-! ### Data model (src/hardware/types.rs) -/

inductive SourceType where
  | OneWire
  | NetworkUpsTools
deriving DecidableEq, Repr

inductive HardwareType where
  | TemperatureSensor
  | UninterruptiblePowerSupply
deriving DecidableEq, Repr

structure HardwareInfo where
  id : String
  hardware_type : HardwareType
deriving DecidableEq, Repr

structure SourceInfo where
  source_type : SourceType
deriving DecidableEq, Repr

structure HardwareMetadata where
  hw : HardwareInfo
  source : SourceInfo
deriving DecidableEq, Repr

def HardwareMetadata.new (id : String) (hardware_type : HardwareType)
    (source_type : SourceType) : HardwareMetadata :=
  { hw := { id := id, hardware_type := hardware_type }
    source := { source_type := source_type } }

/-- `MeasuredTemperature` (src/one_wire/sender.rs): temperature in °C as an
exact rational, resolution in bits. -/
structure MeasuredTemperature where
  meta : HardwareMetadata
  temperature : Option ℚ
  resolution : Option ℕ
deriving DecidableEq, Repr

/-- `UninterruptiblePowerSupplyData` (src/nut/sender.rs); the `variables`
hash map is modelled by its lookup function. The source field name
`variables` is a reserved word in Lean, so the field is called `vars`. -/
structure UninterruptiblePowerSupplyData where
  meta : HardwareMetadata
  vars : String → Option String

/-! ### Hash-map building: repeated `HashMap::insert` over a list -/

/-- Inserting every element of `l` into the map `m`, keyed by `key`; later
inserts overwrite earlier ones, as `HashMap::insert` does. -/
def insertAll {α : Type} (key : α → String) (l : List α)
    (m : String → Option α) : String → Option α :=
  l.foldl (fun acc s => Function.update acc (key s) (some s)) m

/-! ### PassiveCache: `CachedData` (src/passive_endpoint/receiver.rs)

The four `Arc<RwLock<_>>` fields are modelled as plain fields; each
lock-protected access is one atomic step. `set_sensors` / `set_upses` first
overwrite the sequence (under the sequence lock), then clear and repopulate
the id-keyed map (under the map lock); the two phases are exposed separately
for the interleaving analysis. -/

structure CachedData where
  temperature_sensors : List MeasuredTemperature
  upses : List UninterruptiblePowerSupplyData
  temperature_sensors_by_hw_id : String → Option MeasuredTemperature
  upses_by_hw_id : String → Option UninterruptiblePowerSupplyData

def CachedData.default : CachedData :=
  { temperature_sensors := []
    upses := []
    temperature_sensors_by_hw_id := fun _ => none
    upses_by_hw_id := fun _ => none }

def CachedData.get_temperature_sensors (c : CachedData) : List MeasuredTemperature :=
  c.temperature_sensors

def CachedData.get_temperature_sensor_by_hw_id (c : CachedData) (id : String) :
    Option MeasuredTemperature :=
  c.temperature_sensors_by_hw_id id

def CachedData.get_upses (c : CachedData) : List UninterruptiblePowerSupplyData :=
  c.upses

def CachedData.get_ups_by_hw_id (c : CachedData) (id : String) :
    Option UninterruptiblePowerSupplyData :=
  c.upses_by_hw_id id

/-- First atomic step of `set_sensors`: overwrite the vector under its own
lock (`*self.temperature_sensors.write().await = sensors.clone()`). -/
def CachedData.set_sensors_seq_write (c : CachedData)
    (sensors : List MeasuredTemperature) : CachedData :=
  { c with temperature_sensors := sensors }

/-- Second atomic step of `set_sensors`: under the map lock, `clear()` then
insert every sensor keyed by `sensor.meta.hw.id`. -/
def CachedData.set_sensors_map_write (c : CachedData)
    (sensors : List MeasuredTemperature) : CachedData :=
  { c with temperature_sensors_by_hw_id :=
      insertAll (fun s => s.meta.hw.id) sensors (fun _ => none) }

def CachedData.set_sensors (c : CachedData)
    (sensors : List MeasuredTemperature) : CachedData :=
  (c.set_sensors_seq_write sensors).set_sensors_map_write sensors

def CachedData.set_upses_seq_write (c : CachedData)
    (upses : List UninterruptiblePowerSupplyData) : CachedData :=
  { c with upses := upses }

def CachedData.set_upses_map_write (c : CachedData)
    (upses : List UninterruptiblePowerSupplyData) : CachedData :=
  { c with upses_by_hw_id :=
      insertAll (fun u => u.meta.hw.id) upses (fun _ => none) }

def CachedData.set_upses (c : CachedData)
    (upses : List UninterruptiblePowerSupplyData) : CachedData :=
  (c.set_upses_seq_write upses).set_upses_map_write upses

/-! ### Passive read API (src/passive_endpoint/receiver.rs) -/

structure ApiResponse (T : Type) where
  success : Bool
  error : Option String
  data : Option T
deriving Repr

/-- `ApiResponse::new`: if `data` is `None`, `error` is `"not found"` and
`success` is false; otherwise `error` is `None` and `success` is true. -/
def ApiResponse.new {T : Type} (data : Option T) : ApiResponse T :=
  let error : Option String :=
    match data.isNone with
    | true => some "not found"
    | false => none
  { success := error.isNone, error := error, data := data }

/-- The two rocket statuses the by-id routes produce. -/
inductive Status where
  | Ok
  | NotFound
deriving DecidableEq, Repr

def Status.code : Status → ℕ
  | .Ok => 200
  | .NotFound => 404

def get_temperature_sensor_by_hw_id_route (cache : CachedData) (id : String) :
    Status × ApiResponse MeasuredTemperature :=
  let data := cache.get_temperature_sensor_by_hw_id id
  let resp := ApiResponse.new data
  if !resp.success then (Status.NotFound, resp) else (Status.Ok, resp)

def get_ups_by_hw_id_route (cache : CachedData) (id : String) :
    Status × ApiResponse UninterruptiblePowerSupplyData :=
  let data := cache.get_ups_by_hw_id id
  let resp := ApiResponse.new data
  if !resp.success then (Status.NotFound, resp) else (Status.Ok, resp)

/-! ### Number parsing (`str::parse` on trimmed file contents)

`parse::<f64>` is modelled on finite decimal literals
(`[+-]? digits [. digits]? [eE [+-]? digits]?`, at least one mantissa digit),
with exact rational values; `parse::<u8>` on `[+]? digits` with the `255`
bound. -/

/-- Model of `str::trim`, structurally recursive (Rust trims Unicode
whitespace; the inputs of interest are ASCII). -/
def rustTrim (s : String) : String :=
  ⟨((s.data.dropWhile Char.isWhitespace).reverse.dropWhile Char.isWhitespace).reverse⟩

def natOfDigits (cs : List Char) : ℕ :=
  cs.foldl (fun n c => 10 * n + (c.toNat - 48)) 0

/-- Split at the first character satisfying `p`: the part before it, and
(if found) the part after it. -/
def splitOnce (p : Char → Bool) : List Char → List Char × Option (List Char)
  | [] => ([], none)
  | c :: cs =>
    if p c then ([], some cs)
    else
      let r := splitOnce p cs
      (c :: r.1, r.2)

def parseMantissa (cs : List Char) : Option ℚ :=
  let ip := splitOnce (fun c => c == '.') cs
  match ip.2 with
  | none =>
    if !ip.1.isEmpty && ip.1.all Char.isDigit then some (natOfDigits ip.1 : ℚ)
    else none
  | some fp =>
    if (!ip.1.isEmpty || !fp.isEmpty) && ip.1.all Char.isDigit && fp.all Char.isDigit then
      some ((natOfDigits ip.1 : ℚ) + (natOfDigits fp : ℚ) / (10 : ℚ) ^ fp.length)
    else none

def parseExpPart (cs : List Char) : Option ℤ :=
  match cs with
  | '+' :: ds =>
    if !ds.isEmpty && ds.all Char.isDigit then some (natOfDigits ds : ℤ) else none
  | '-' :: ds =>
    if !ds.isEmpty && ds.all Char.isDigit then some (-(natOfDigits ds : ℤ)) else none
  | ds =>
    if !ds.isEmpty && ds.all Char.isDigit then some (natOfDigits ds : ℤ) else none

/-- Model of `str::parse::<f64>` restricted to finite decimal literals; the
value is exact. -/
def parseDecimal (s : String) : Option ℚ :=
  let sr : ℚ × List Char :=
    match s.data with
    | '+' :: r => (1, r)
    | '-' :: r => (-1, r)
    | r => (1, r)
  let me := splitOnce (fun c => c == 'e' || c == 'E') sr.2
  match parseMantissa me.1, me.2 with
  | some m, none => some (sr.1 * m)
  | some m, some ep => (parseExpPart ep).map (fun k => sr.1 * m * (10 : ℚ) ^ k)
  | none, _ => none

/-- Model of `str::parse::<u8>`. -/
def parseU8 (s : String) : Option ℕ :=
  let cs : List Char :=
    match s.data with
    | '+' :: r => r
    | r => r
  if !cs.isEmpty && cs.all Char.isDigit then
    let n := natOfDigits cs
    if n ≤ 255 then some n else none
  else none

/-! ### One-wire sensor reads (src/ds18b20.rs)

The filesystem is out of scope (spec §6); a device carries the contents of
its `temperature` and `resolution` files, `none` standing for a path that is
not a readable file. -/

structure Ds18b20TemperatureSensor where
  meta : HardwareMetadata
  temperature_file : Option String
  resolution_file : Option String

/-- `get_temperature`: if the `temperature` file exists, parse its trimmed
contents as a float and divide by 1000 (millidegrees → °C); `None` on a
missing file or a parse failure. -/
def Ds18b20TemperatureSensor.get_temperature (d : Ds18b20TemperatureSensor) :
    Option ℚ :=
  match d.temperature_file with
  | none => none
  | some contents =>
    match parseDecimal (rustTrim contents) with
    | some temperature => some (temperature / 1000)
    | none => none

/-- `get_resolution`: parse the trimmed `resolution` file contents as `u8`. -/
def Ds18b20TemperatureSensor.get_resolution (d : Ds18b20TemperatureSensor) :
    Option ℕ :=
  match d.resolution_file with
  | none => none
  | some contents => parseU8 (rustTrim contents)

/-! ### One-wire updater loop body (src/one_wire/sender.rs) -/

/-- One cycle of `start_one_wire_updater_loop`: map every scanned device to a
`MeasuredTemperature`, then keep only those with a temperature reading. -/
def oneWireCycleSensors (devices : List Ds18b20TemperatureSensor) :
    List MeasuredTemperature :=
  let sensors := devices.map fun d =>
    { meta := d.meta
      temperature := d.get_temperature
      resolution := d.get_resolution : MeasuredTemperature }
  sensors.filter fun s => s.temperature.isSome

/-- The collections one cycle publishes to the broadcast channel: one if
`tx.receiver_count() > 0`, none otherwise. -/
def oneWireCyclePublished (devices : List Ds18b20TemperatureSensor)
    (receiver_count : ℕ) : List (List MeasuredTemperature) :=
  if receiver_count > 0 then [oneWireCycleSensors devices] else []

/-- `tokio::sync::broadcast::Sender::send`: fails exactly when there are no
subscribed receivers, otherwise returns the receiver count. -/
def broadcastSend (receiver_count : ℕ) : Except Unit ℕ :=
  if receiver_count = 0 then Except.error () else Except.ok receiver_count

/-! ### NUT client (src/nut/client.rs) -/

/-- The remote protocol session, out of scope per spec §6: only its
`get_var` behaviour matters here, modelled as a pure lookup. -/
structure Connection where
  get_var : String → String → Option String

structure UninterruptiblePowerSupply where
  meta : HardwareMetadata
  ups_name : String
  variables_to_monitor : List String

/-- The default monitored-variable list substituted by
`UninterruptiblePowerSupply::new` when none are configured. -/
def defaultVariablesToMonitor : List String :=
  ["battery.charge", "battery.charge.low", "battery.runtime",
   "battery.runtime.low", "input.frequency", "input.voltage",
   "output.frequency", "output.frequency.nominal", "output.voltage",
   "output.voltage.nominal", "ups.load", "ups.power", "ups.power.nominal",
   "ups.realpower", "ups.status"]

def UninterruptiblePowerSupply.new (ups_name : String) (server_id : String)
    (variables_to_monitor : Option (List String)) : UninterruptiblePowerSupply :=
  let id := "[" ++ ups_name ++ "]" ++ server_id
  let vtm0 := variables_to_monitor.getD []
  let vtm := if vtm0.isEmpty then defaultVariablesToMonitor else vtm0
  { meta := HardwareMetadata.new id HardwareType.UninterruptiblePowerSupply
      SourceType.NetworkUpsTools
    ups_name := ups_name
    variables_to_monitor := vtm }

def UninterruptiblePowerSupply.get_variables_to_monitor
    (u : UninterruptiblePowerSupply) : List String :=
  u.variables_to_monitor

/-- One step of the attribute sweep of `query_variables`: a successful
`get_var` call inserts the value, a failed one leaves the map unchanged. -/
def collectStep (get : String → Option String) (acc : String → Option String)
    (v : String) : String → Option String :=
  match get v with
  | some value => Function.update acc v (some value)
  | none => acc

/-- The attribute sweep of `query_variables`: for each monitored name in
order, one `get_var` call; a success is inserted, a failure leaves the map
unchanged. -/
def collectVars (get : String → Option String) (names : List String)
    (acc : String → Option String) : String → Option String :=
  names.foldl (collectStep get) acc

/-- `query_variables`: with no connection in the guarded slot, the empty map;
otherwise one `get_var` call per monitored name, inserting only the
successes. -/
def UninterruptiblePowerSupply.query_variables (u : UninterruptiblePowerSupply)
    (guarded_connection : Option Connection) : String → Option String :=
  match guarded_connection with
  | none => fun _ => none
  | some conn =>
    collectVars (conn.get_var u.ups_name) u.get_variables_to_monitor (fun _ => none)

/-! ### NUT connection manager (src/nut/client.rs)

Durations are in seconds; only the backoff sleeps advance the model clock.
The `u32` saturating increment of `failed_attempts` is modelled as `ℕ`
successor. -/

structure NutClientState where
  time : ℕ
  failed_attempts : ℕ
  connected : Bool
deriving DecidableEq, Repr

/-- `NetworkUpsToolsClient::connect`: increment `failed_attempts`, attempt
the connection; on success reset the counter to 0 and store the session. -/
def nutConnect (outcome : Bool) (s : NutClientState) : NutClientState :=
  if outcome then { s with failed_attempts := 0, connected := true }
  else { s with failed_attempts := s.failed_attempts + 1 }

/-- The backoff sleep of `connect_if_not_connected`:
`min(cooldown * failed_attempts, 1 hour)`. -/
def backoffSleep (cooldown : ℕ) (failed_attempts : ℕ) : ℕ :=
  min (cooldown * failed_attempts) 3600

/-- One iteration of the `connect_if_not_connected` retry loop: read
`failed_attempts`, sleep the backoff, then attempt to connect. The attempt
happens at the post-sleep time. -/
def nutLoopIter (cooldown : ℕ) (s : NutClientState) (outcome : Bool) :
    NutClientState :=
  nutConnect outcome { s with time := s.time + backoffSleep cooldown s.failed_attempts }

/-- The time at which the next connect attempt is made from state `s`. -/
def nutNextAttemptTime (cooldown : ℕ) (s : NutClientState) : ℕ :=
  s.time + backoffSleep cooldown s.failed_attempts

/-- Run the retry loop over a list of connect outcomes. -/
def nutRunLoop (cooldown : ℕ) (s : NutClientState) (outcomes : List Bool) :
    NutClientState :=
  outcomes.foldl (nutLoopIter cooldown) s

/-! ### Active sender endpoint loop (src/active_sender/receiver.rs)

Times are in milliseconds. `last_sent` is the `Option<Instant>` of the loop;
the send itself is modelled as instantaneous, so a send stamps `last_sent`
with the notification's arrival time. -/

/-- `max(config.get_cooldown(), Duration::from_secs(1))`. -/
def effectiveCooldown (config_cooldown : ℕ) : ℕ :=
  max config_cooldown 1000

/-- One received snapshot-changed notification: skip when
`last_sent.is_some() && last_sent.unwrap().elapsed() <= cooldown`, otherwise
send and stamp `last_sent`. Returns (sent?, new `last_sent`). -/
def senderStep (cooldown : ℕ) (last_sent : Option ℕ) (now : ℕ) :
    Bool × Option ℕ :=
  match last_sent with
  | some t => if now - t ≤ cooldown then (false, some t) else (true, some now)
  | none => (true, some now)

/-- The send times produced by the endpoint loop on a list of notification
arrival times. -/
def activeSenderSends (cooldown : ℕ) (last_sent : Option ℕ) :
    List ℕ → List ℕ
  | [] => []
  | t :: ts =>
    let r := senderStep cooldown last_sent t
    if r.1 then t :: activeSenderSends cooldown r.2 ts
    else activeSenderSends cooldown r.2 ts

/-- `spacedApart gap prev ts`: the times `ts` are increasing and consecutive
times (starting from `prev`) are more than `gap` apart. -/
def spacedApart (gap : ℕ) : ℕ → List ℕ → Bool
  | _, [] => true
  | prev, t :: ts => decide (prev + gap < t) && spacedApart gap t ts

/-! ### Interleaving points of a cache write (src/passive_endpoint/receiver.rs)

The sequence and the id-keyed map sit behind two separate `RwLock`s, so a
`set_*` is two lock-protected writes in sequence; a concurrent reader can run
before the first write, between the two writes, or after the second. -/

inductive WritePoint where
  | before
  | between
  | after
deriving DecidableEq, Repr

/-- The cache state a reader observes at each point of an in-progress
`set_sensors`. -/
def readDuringSetSensors (c : CachedData) (sensors : List MeasuredTemperature) :
    WritePoint → CachedData
  | .before => c
  | .between => c.set_sensors_seq_write sensors
  | .after => c.set_sensors sensors

/-- The cache state a reader observes at each point of an in-progress
`set_upses`. -/
def readDuringSetUpses (c : CachedData)
    (upses : List UninterruptiblePowerSupplyData) : WritePoint → CachedData
  | .before => c
  | .between => c.set_upses_seq_write upses
  | .after => c.set_upses upses

/-! ### Concrete example values (used by closed witness statements) -/

def exMetaA : HardwareMetadata :=
  HardwareMetadata.new "28-000000000001" HardwareType.TemperatureSensor
    SourceType.OneWire

def exMetaB : HardwareMetadata :=
  HardwareMetadata.new "28-000000000002" HardwareType.TemperatureSensor
    SourceType.OneWire

def exSensorA : MeasuredTemperature :=
  { meta := exMetaA, temperature := some 2, resolution := some 12 }

def exSensorB : MeasuredTemperature :=
  { meta := exMetaB, temperature := some 2, resolution := some 9 }

def exUpsMeta : HardwareMetadata :=
  HardwareMetadata.new "[ups1]srv" HardwareType.UninterruptiblePowerSupply
    SourceType.NetworkUpsTools

def exUpsVars : String → Option String :=
  fun k => if k = "battery.charge" then some "100" else none

def exUpsData : UninterruptiblePowerSupplyData :=
  { meta := exUpsMeta, vars := exUpsVars }

def exDevice : Ds18b20TemperatureSensor :=
  { meta := exMetaA, temperature_file := some "1234", resolution_file := some "12" }

def exDeviceBad : Ds18b20TemperatureSensor :=
  { meta := exMetaB, temperature_file := some "abc", resolution_file := none }

def exConn : Connection :=
  { get_var := fun _ v => if v = "battery.charge" then some "100" else none }

/-- The single item of `oneWireCycleSensors [exDevice]`. -/
def exPublishedItem : MeasuredTemperature :=
  { meta := exMetaA
    temperature := exDevice.get_temperature
    resolution := exDevice.get_resolution }

/-! ## Theorems -/

theorem insertAll_nil {α : Type} (key : α → String) (m : String → Option α) :
    insertAll key [] m = m := rfl

theorem insertAll_cons {α : Type} (key : α → String) (s : α) (l : List α)
    (m : String → Option α) :
    insertAll key (s :: l) m = insertAll key l (Function.update m (key s) (some s)) := rfl

theorem insertAll_lookup_of_forall_ne {α : Type} (key : α → String) (l : List α)
    (m : String → Option α) (id : String) (h : ∀ s ∈ l, key s ≠ id) :
    insertAll key l m id = m id := by
  induction l generalizing m with
  | nil => rfl
  | cons a t ih =>
      rw [insertAll_cons, ih _ (fun s hs => h s (List.mem_cons_of_mem _ hs))]
      have ha : key a ≠ id := h a (List.mem_cons_self _ _)
      exact Function.update_noteq (fun hne => ha hne.symm) _ _

theorem insertAll_lookup_eq_some {α : Type} (key : α → String) (l : List α)
    (m : String → Option α) (id : String) (x : α)
    (h : insertAll key l m id = some x) :
    (x ∈ l ∧ key x = id) ∨ m id = some x := by
  induction l generalizing m with
  | nil => exact Or.inr h
  | cons a t ih =>
      rw [insertAll_cons] at h
      rcases ih _ h with h1 | h2
      · exact Or.inl ⟨List.mem_cons_of_mem _ h1.1, h1.2⟩
      · by_cases hid : id = key a
        · subst hid
          rw [Function.update_same] at h2
          injection h2 with h3
          subst h3
          exact Or.inl ⟨List.mem_cons_self _ _, rfl⟩
        · rw [Function.update_noteq hid] at h2
          exact Or.inr h2

theorem insertAll_lookup_isSome {α : Type} (key : α → String) (l : List α)
    (m : String → Option α) (id : String)
    (h : ∃ s ∈ l, key s = id) :
    (insertAll key l m id).isSome := by
  induction l generalizing m with
  | nil => obtain ⟨s, hs, _⟩ := h; cases hs
  | cons a t ih =>
      rw [insertAll_cons]
      by_cases ht : ∃ u ∈ t, key u = id
      · exact ih _ ht
      · have hne : ∀ u ∈ t, key u ≠ id := by
          intro u hu hk
          exact ht ⟨u, hu, hk⟩
        rw [insertAll_lookup_of_forall_ne _ _ _ _ hne]
        obtain ⟨s, hs, hkey⟩ := h
        have has : s = a := by
          rcases List.mem_cons.mp hs with h1 | h1
          · exact h1
          · exact absurd hkey (hne s h1)
        subst has
        subst hkey
        simp [Function.update]

/-- Every id occurring in `l` is mapped (after inserting all of `l` into the
empty map) to some element of `l` bearing that id. -/
theorem insertAll_lookup_of_mem {α : Type} (key : α → String) (l : List α)
    (id : String) (s : α) (hs : s ∈ l) (hkey : key s = id) :
    ∃ x, insertAll key l (fun _ => none) id = some x ∧ x ∈ l ∧ key x = id := by
  have hsome := insertAll_lookup_isSome key l (fun _ => none) id ⟨s, hs, hkey⟩
  obtain ⟨x, hx⟩ := Option.isSome_iff_exists.mp hsome
  rcases insertAll_lookup_eq_some key l _ id x hx with h | h
  · exact ⟨x, hx, h⟩
  · cases h

/-! ### C1: PassiveCache set/get -/

/-- C1: after `set(family, items)` and before any further set for that
family, `get_all(family)` returns exactly `items` in the same order, and
`get_by_id(family, id)` returns a matching item for every id occurring in
`items` and `None` for every id not occurring; this holds for the
temperature family and the power-supply family, and a set of the other
family leaves this family's views untouched. -/
theorem passive_cache_set_then_get (c : CachedData)
    (sensors : List MeasuredTemperature)
    (upses : List UninterruptiblePowerSupplyData) (id : String) :
    ((c.set_sensors sensors).get_temperature_sensors = sensors
      ∧ (∀ s ∈ sensors, s.meta.hw.id = id →
          ∃ x, (c.set_sensors sensors).get_temperature_sensor_by_hw_id id = some x
            ∧ x ∈ sensors ∧ x.meta.hw.id = id)
      ∧ ((∀ s ∈ sensors, s.meta.hw.id ≠ id) →
          (c.set_sensors sensors).get_temperature_sensor_by_hw_id id = none)
      ∧ ((c.set_sensors sensors).set_upses upses).get_temperature_sensors = sensors
      ∧ ((c.set_sensors sensors).set_upses upses).get_temperature_sensor_by_hw_id id
          = (c.set_sensors sensors).get_temperature_sensor_by_hw_id id)
    ∧ ((c.set_upses upses).get_upses = upses
      ∧ (∀ u ∈ upses, u.meta.hw.id = id →
          ∃ x, (c.set_upses upses).get_ups_by_hw_id id = some x
            ∧ x ∈ upses ∧ x.meta.hw.id = id)
      ∧ ((∀ u ∈ upses, u.meta.hw.id ≠ id) →
          (c.set_upses upses).get_ups_by_hw_id id = none)
      ∧ ((c.set_upses upses).set_sensors sensors).get_upses = upses
      ∧ ((c.set_upses upses).set_sensors sensors).get_ups_by_hw_id id
          = (c.set_upses upses).get_ups_by_hw_id id) := by
  refine ⟨⟨rfl, ?_, ?_, rfl, rfl⟩, rfl, ?_, ?_, rfl, rfl⟩
  · intro s hs hid
    exact insertAll_lookup_of_mem _ sensors id s hs hid
  · intro h
    exact insertAll_lookup_of_forall_ne _ sensors _ id h
  · intro u hu hid
    exact insertAll_lookup_of_mem _ upses id u hu hid
  · intro h
    exact insertAll_lookup_of_forall_ne _ upses _ id h

/-- C1 witness: concrete caches for both families. -/
theorem passive_cache_set_then_get_witness :
    (CachedData.default.set_sensors [exSensorA]).get_temperature_sensors = [exSensorA]
    ∧ (∃ x, (CachedData.default.set_sensors [exSensorA]).get_temperature_sensor_by_hw_id
        "28-000000000001" = some x ∧ x ∈ [exSensorA] ∧ x.meta.hw.id = "28-000000000001")
    ∧ (CachedData.default.set_sensors [exSensorA]).get_temperature_sensor_by_hw_id
        "28-000000000002" = none
    ∧ (∃ x, (CachedData.default.set_upses [exUpsData]).get_ups_by_hw_id
        "[ups1]srv" = some x ∧ x ∈ [exUpsData] ∧ x.meta.hw.id = "[ups1]srv")
    ∧ (CachedData.default.set_upses [exUpsData]).get_ups_by_hw_id "missing" = none := by
  have h1 := passive_cache_set_then_get CachedData.default [exSensorA] [exUpsData]
    "28-000000000001"
  have h2 := passive_cache_set_then_get CachedData.default [exSensorA] [exUpsData]
    "28-000000000002"
  have h3 := passive_cache_set_then_get CachedData.default [exSensorA] [exUpsData]
    "[ups1]srv"
  have h4 := passive_cache_set_then_get CachedData.default [exSensorA] [exUpsData]
    "missing"
  refine ⟨h1.1.1, h1.1.2.1 exSensorA (List.mem_singleton.mpr rfl) rfl,
    h2.1.2.2.1 ?_, h3.2.2.1 exUpsData (List.mem_singleton.mpr rfl) rfl,
    h4.2.2.2.1 ?_⟩
  · intro s hs
    rw [List.mem_singleton] at hs
    subst hs
    decide
  · intro u hu
    rw [List.mem_singleton] at hu
    subst hu
    decide

/-! ### C5: by-id routes -/

/-- C5: for an id absent from the cache, the by-id routes return the
not-found status (404, not 500) with `success:false`, `error:"not found"`
and no data; for a present id, the OK status with `success:true`, no error,
and the cached item as data; for both families. -/
theorem passive_api_by_id_routes (cache : CachedData) (id : String) :
    (cache.get_temperature_sensor_by_hw_id id = none →
      get_temperature_sensor_by_hw_id_route cache id
        = (Status.NotFound,
            { success := false, error := some "not found", data := none }))
    ∧ (∀ item, cache.get_temperature_sensor_by_hw_id id = some item →
      get_temperature_sensor_by_hw_id_route cache id
        = (Status.Ok, { success := true, error := none, data := some item }))
    ∧ (cache.get_ups_by_hw_id id = none →
      get_ups_by_hw_id_route cache id
        = (Status.NotFound,
            { success := false, error := some "not found", data := none }))
    ∧ (∀ item, cache.get_ups_by_hw_id id = some item →
      get_ups_by_hw_id_route cache id
        = (Status.Ok, { success := true, error := none, data := some item }))
    ∧ Status.NotFound.code = 404 ∧ Status.Ok.code = 200
    ∧ Status.NotFound.code ≠ 500 := by
  refine ⟨?_, ?_, ?_, ?_, rfl, rfl, by decide⟩
  · intro h
    unfold get_temperature_sensor_by_hw_id_route
    rw [h]
    rfl
  · intro item h
    unfold get_temperature_sensor_by_hw_id_route
    rw [h]
    rfl
  · intro h
    unfold get_ups_by_hw_id_route
    rw [h]
    rfl
  · intro item h
    unfold get_ups_by_hw_id_route
    rw [h]
    rfl

/-- C5 witness: both routes on a concrete cache, present and absent ids. -/
theorem passive_api_by_id_routes_witness :
    get_temperature_sensor_by_hw_id_route (CachedData.default.set_sensors [exSensorA])
        "28-000000000001"
      = (Status.Ok, { success := true, error := none, data := some exSensorA })
    ∧ get_temperature_sensor_by_hw_id_route (CachedData.default.set_sensors [exSensorA])
        "missing"
      = (Status.NotFound, { success := false, error := some "not found", data := none })
    ∧ get_ups_by_hw_id_route (CachedData.default.set_upses [exUpsData]) "[ups1]srv"
      = (Status.Ok, { success := true, error := none, data := some exUpsData })
    ∧ get_ups_by_hw_id_route (CachedData.default.set_upses [exUpsData]) "missing"
      = (Status.NotFound, { success := false, error := some "not found", data := none }) := by
  refine ⟨?_, ?_, ?_, ?_⟩
  · exact (passive_api_by_id_routes _ _).2.1 exSensorA rfl
  · exact (passive_api_by_id_routes _ _).1 rfl
  · exact (passive_api_by_id_routes _ _).2.2.2.1 exUpsData rfl
  · exact (passive_api_by_id_routes _ _).2.2.1 rfl

/-! ### C9: the sequence+mapping pair is not updated atomically -/

/-- C9 counterexample: a reader running between the two lock-protected
writes of `set_sensors` (the sequence write and the map rebuild) observes
the new sequence paired with the old mapping: neither the entirely-old nor
the entirely-new state, and the sequence and the mapping disagree (the item
is in the sequence but its id is absent from the mapping). -/
theorem cache_pair_atomicity_counterexample :
    (readDuringSetSensors (CachedData.default.set_sensors [exSensorA]) [exSensorB]
        WritePoint.between).get_temperature_sensors
      ≠ (CachedData.default.set_sensors [exSensorA]).get_temperature_sensors
    ∧ (readDuringSetSensors (CachedData.default.set_sensors [exSensorA]) [exSensorB]
        WritePoint.between).get_temperature_sensor_by_hw_id "28-000000000002"
      ≠ ((CachedData.default.set_sensors [exSensorA]).set_sensors
          [exSensorB]).get_temperature_sensor_by_hw_id "28-000000000002"
    ∧ exSensorB ∈ (readDuringSetSensors (CachedData.default.set_sensors [exSensorA])
        [exSensorB] WritePoint.between).get_temperature_sensors
    ∧ (readDuringSetSensors (CachedData.default.set_sensors [exSensorA]) [exSensorB]
        WritePoint.between).get_temperature_sensor_by_hw_id "28-000000000002" = none := by
  refine ⟨by decide, by decide, ?_, rfl⟩
  exact List.mem_singleton.mpr rfl

/-- C9 (amended): `set` for a family is two atomic writes on two separate
locks, sequence first, then mapping; a read concurrent with the set observes
for each view either the entirely-old or the entirely-new value of that
view, but between the writes it observes the new sequence with the old
mapping, so the sequence-plus-mapping pair is not atomic. -/
theorem cache_per_view_atomicity (c : CachedData)
    (sensors : List MeasuredTemperature)
    (upses : List UninterruptiblePowerSupplyData) (p : WritePoint) (id : String) :
    (c.set_sensors sensors
        = (c.set_sensors_seq_write sensors).set_sensors_map_write sensors
      ∧ ((readDuringSetSensors c sensors p).get_temperature_sensors
            = c.get_temperature_sensors
          ∨ (readDuringSetSensors c sensors p).get_temperature_sensors = sensors)
      ∧ ((readDuringSetSensors c sensors p).get_temperature_sensor_by_hw_id id
            = c.get_temperature_sensor_by_hw_id id
          ∨ (readDuringSetSensors c sensors p).get_temperature_sensor_by_hw_id id
            = (c.set_sensors sensors).get_temperature_sensor_by_hw_id id)
      ∧ (readDuringSetSensors c sensors WritePoint.between).get_temperature_sensors
          = sensors
      ∧ (readDuringSetSensors c sensors WritePoint.between).get_temperature_sensor_by_hw_id id
          = c.get_temperature_sensor_by_hw_id id)
    ∧ (c.set_upses upses
        = (c.set_upses_seq_write upses).set_upses_map_write upses
      ∧ ((readDuringSetUpses c upses p).get_upses = c.get_upses
          ∨ (readDuringSetUpses c upses p).get_upses = upses)
      ∧ ((readDuringSetUpses c upses p).get_ups_by_hw_id id
            = c.get_ups_by_hw_id id
          ∨ (readDuringSetUpses c upses p).get_ups_by_hw_id id
            = (c.set_upses upses).get_ups_by_hw_id id)) := by
  cases p with
  | before => exact ⟨⟨rfl, Or.inl rfl, Or.inl rfl, rfl, rfl⟩, rfl, Or.inl rfl, Or.inl rfl⟩
  | between => exact ⟨⟨rfl, Or.inr rfl, Or.inl rfl, rfl, rfl⟩, rfl, Or.inr rfl, Or.inl rfl⟩
  | after => exact ⟨⟨rfl, Or.inr rfl, Or.inr rfl, rfl, rfl⟩, rfl, Or.inr rfl, Or.inr rfl⟩

/-! ### C2: only readable temperatures are published -/

/-- C2: every `MeasuredTemperature` item of every collection the one-wire
updater loop publishes to its broadcast channel has `temperature.isSome`;
an item whose temperature could not be read or parsed never appears. -/
theorem published_temperatures_all_some
    (devices : List Ds18b20TemperatureSensor) (receiver_count : ℕ)
    (published : List MeasuredTemperature) (item : MeasuredTemperature)
    (hp : published ∈ oneWireCyclePublished devices receiver_count)
    (hi : item ∈ published) :
    item.temperature.isSome = true := by
  unfold oneWireCyclePublished at hp
  by_cases hrc : receiver_count > 0
  · rw [if_pos hrc, List.mem_singleton] at hp
    subst hp
    unfold oneWireCycleSensors at hi
    exact (List.mem_filter.mp hi).2
  · rw [if_neg hrc] at hp
    cases hp

/-- C2 witness: one concrete device with a readable temperature file. -/
theorem published_temperatures_all_some_witness :
    exPublishedItem.temperature.isSome = true := by
  refine published_temperatures_all_some [exDevice] 1 (oneWireCycleSensors [exDevice])
    exPublishedItem ?_ ?_
  · show oneWireCycleSensors [exDevice] ∈ [oneWireCycleSensors [exDevice]]
    exact List.mem_singleton.mpr rfl
  · show exPublishedItem ∈ [exPublishedItem]
    exact List.mem_singleton.mpr rfl

/-! ### C6: millidegree conversion -/

/-- C6: `get_temperature` parses the file contents as a number and divides
by 1000: for contents `"1234"` it returns exactly `1.234`; a parsed value
`q` yields `q / 1000`; unparseable contents yield `None`. -/
theorem get_temperature_conversion (d : Ds18b20TemperatureSensor) (s : String) :
    (∀ q, d.temperature_file = some s → parseDecimal (rustTrim s) = some q →
      d.get_temperature = some (q / 1000))
    ∧ (d.temperature_file = some "1234" → d.get_temperature = some 1.234)
    ∧ (d.temperature_file = some s → parseDecimal (rustTrim s) = none →
      d.get_temperature = none) := by
  refine ⟨?_, ?_, ?_⟩
  · intro q hf hp
    unfold Ds18b20TemperatureSensor.get_temperature
    rw [hf]
    show (match parseDecimal (rustTrim s) with
      | some temperature => some (temperature / 1000)
      | none => none) = some (q / 1000)
    rw [hp]
  · intro hf
    unfold Ds18b20TemperatureSensor.get_temperature
    rw [hf]
    show (match parseDecimal (rustTrim "1234") with
      | some temperature => some (temperature / 1000)
      | none => none) = some 1.234
    have h1 : rustTrim "1234" = "1234" := by decide
    have h2 : parseDecimal "1234"
        = some ((1 : ℚ) * ((natOfDigits ['1', '2', '3', '4'] : ℕ) : ℚ)) := rfl
    have h3 : natOfDigits ['1', '2', '3', '4'] = 1234 := by decide
    rw [h1, h2, h3]
    show some ((1 : ℚ) * ((1234 : ℕ) : ℚ) / 1000) = some 1.234
    norm_num
  · intro hf hp
    unfold Ds18b20TemperatureSensor.get_temperature
    rw [hf]
    show (match parseDecimal (rustTrim s) with
      | some temperature => some (temperature / 1000)
      | none => none) = none
    rw [hp]

/-- C6 witness: the file contents `"1234"` give exactly `1.234` °C, and
unparseable contents give `None`. -/
theorem get_temperature_conversion_witness :
    exDevice.get_temperature = some 1.234 ∧ exDeviceBad.get_temperature = none := by
  refine ⟨(get_temperature_conversion exDevice "1234").2.1 rfl,
    (get_temperature_conversion exDeviceBad "abc").2.2 rfl ?_⟩
  decide

/-! ### C8: guarded publish -/

/-- C8: each cycle publishes the filtered collection exactly once if at
least one consumer is subscribed and zero times otherwise, and under that
guard the broadcast send succeeds (the `unwrap` is unreachable as an
error). -/
theorem one_wire_publish_guarded (devices : List Ds18b20TemperatureSensor)
    (receiver_count : ℕ) :
    (oneWireCyclePublished devices receiver_count).length
        = (if receiver_count > 0 then 1 else 0)
    ∧ (receiver_count > 0 → broadcastSend receiver_count = Except.ok receiver_count) := by
  constructor
  · unfold oneWireCyclePublished
    by_cases h : receiver_count > 0
    · rw [if_pos h, if_pos h]
      rfl
    · rw [if_neg h, if_neg h]
      rfl
  · intro h
    unfold broadcastSend
    rw [if_neg (Nat.pos_iff_ne_zero.mp h)]

/-- C8 witness: one subscriber publishes once and the send succeeds; zero
subscribers publish nothing. -/
theorem one_wire_publish_guarded_witness :
    (oneWireCyclePublished [exDevice] 1).length = 1
    ∧ broadcastSend 1 = Except.ok 1
    ∧ (oneWireCyclePublished [exDevice] 0).length = 0 := by
  refine ⟨?_, (one_wire_publish_guarded [exDevice] 1).2 (by decide), ?_⟩
  · have h := (one_wire_publish_guarded [exDevice] 1).1
    rw [if_pos (by decide : (1 : ℕ) > 0)] at h
    exact h
  · have h := (one_wire_publish_guarded [exDevice] 0).1
    rw [if_neg (by decide : ¬(0 : ℕ) > 0)] at h
    exact h

/-! ### C7: query_variables keeps exactly the successful reads -/

theorem collectVars_cons (get : String → Option String) (a : String)
    (t : List String) (acc : String → Option String) :
    collectVars get (a :: t) acc = collectVars get t (collectStep get acc a) := rfl

theorem collectStep_ne (get : String → Option String)
    (acc : String → Option String) (a k : String) (h : k ≠ a) :
    collectStep get acc a k = acc k := by
  unfold collectStep
  cases get a with
  | none => rfl
  | some value => exact Function.update_noteq h _ _

theorem collectVars_lookup_of_not_mem (get : String → Option String)
    (names : List String) (acc : String → Option String) (k : String)
    (h : k ∉ names) :
    collectVars get names acc k = acc k := by
  induction names generalizing acc with
  | nil => rfl
  | cons a t ih =>
      have hka : k ≠ a := fun he => h (he ▸ List.mem_cons_self a t)
      have hkt : k ∉ t := fun ht => h (List.mem_cons_of_mem a ht)
      rw [collectVars_cons, ih _ hkt]
      exact collectStep_ne get acc a k hka

theorem collectVars_lookup_of_get_none (get : String → Option String)
    (names : List String) (acc : String → Option String) (k : String)
    (hg : get k = none) :
    collectVars get names acc k = acc k := by
  induction names generalizing acc with
  | nil => rfl
  | cons a t ih =>
      rw [collectVars_cons, ih]
      by_cases hka : k = a
      · subst hka
        unfold collectStep
        rw [hg]
      · exact collectStep_ne get acc a k hka

theorem collectVars_lookup_of_mem (get : String → Option String)
    (names : List String) (acc : String → Option String) (k v : String)
    (hk : k ∈ names) (hg : get k = some v) :
    collectVars get names acc k = some v := by
  induction names generalizing acc with
  | nil => cases hk
  | cons a t ih =>
      rw [collectVars_cons]
      by_cases hkt : k ∈ t
      · exact ih _ hkt
      · have hka : k = a := by
          rcases List.mem_cons.mp hk with h1 | h1
          · exact h1
          · exact absurd h1 hkt
        subst hka
        rw [collectVars_lookup_of_not_mem get t _ k hkt]
        unfold collectStep
        rw [hg]
        exact Function.update_same _ _ _

/-- C7: the mapping `query_variables` returns contains exactly the monitored
attributes whose `get_var` calls succeeded, mapped to the retrieved values;
a failed attribute is absent (no entry, never a null value) and does not
abort the sweep; with no connection the mapping is empty. -/
theorem query_variables_exactly_successes (u : UninterruptiblePowerSupply)
    (conn : Connection) (k : String) :
    (∀ v, u.query_variables (some conn) k = some v ↔
      (k ∈ u.get_variables_to_monitor ∧ conn.get_var u.ups_name k = some v))
    ∧ (conn.get_var u.ups_name k = none → u.query_variables (some conn) k = none)
    ∧ (k ∉ u.get_variables_to_monitor → u.query_variables (some conn) k = none)
    ∧ u.query_variables none k = none := by
  have hq : u.query_variables (some conn)
      = collectVars (conn.get_var u.ups_name) u.get_variables_to_monitor
          (fun _ => none) := rfl
  refine ⟨?_, ?_, ?_, rfl⟩
  · intro v
    constructor
    · intro h
      rw [hq] at h
      by_cases hk : k ∈ u.get_variables_to_monitor
      · refine ⟨hk, ?_⟩
        cases hg : conn.get_var u.ups_name k with
        | none =>
            rw [collectVars_lookup_of_get_none _ _ _ _ hg] at h
            simp at h
        | some w =>
            rw [collectVars_lookup_of_mem _ _ _ _ _ hk hg] at h
            injection h with h2
            rw [← h2]
      · rw [collectVars_lookup_of_not_mem _ _ _ _ hk] at h
        simp at h
    · rintro ⟨hk, hg⟩
      rw [hq]
      exact collectVars_lookup_of_mem _ _ _ _ _ hk hg
  · intro hg
    rw [hq]
    exact collectVars_lookup_of_get_none _ _ _ _ hg
  · intro hk
    rw [hq]
    exact collectVars_lookup_of_not_mem _ _ _ _ hk

/-- C7 witness: a UPS monitoring two attributes against a connection that
serves only one of them. -/
theorem query_variables_exactly_successes_witness :
    (UninterruptiblePowerSupply.new "ups1" "srv"
        (some ["battery.charge", "ups.load"])).query_variables (some exConn)
        "battery.charge" = some "100"
    ∧ (UninterruptiblePowerSupply.new "ups1" "srv"
        (some ["battery.charge", "ups.load"])).query_variables (some exConn)
        "ups.load" = none
    ∧ (UninterruptiblePowerSupply.new "ups1" "srv"
        (some ["battery.charge", "ups.load"])).query_variables (some exConn)
        "battery.runtime" = none
    ∧ (UninterruptiblePowerSupply.new "ups1" "srv"
        (some ["battery.charge", "ups.load"])).query_variables none
        "battery.charge" = none := by
  have h1 := query_variables_exactly_successes
    (UninterruptiblePowerSupply.new "ups1" "srv" (some ["battery.charge", "ups.load"]))
    exConn "battery.charge"
  have h2 := query_variables_exactly_successes
    (UninterruptiblePowerSupply.new "ups1" "srv" (some ["battery.charge", "ups.load"]))
    exConn "ups.load"
  have h3 := query_variables_exactly_successes
    (UninterruptiblePowerSupply.new "ups1" "srv" (some ["battery.charge", "ups.load"]))
    exConn "battery.runtime"
  refine ⟨(h1.1 "100").mpr ⟨by decide, rfl⟩, h2.2.1 rfl, h3.2.2.1 (by decide),
    h1.2.2.2⟩

/-! ### C10: UPS constructor defaults and id format -/

/-- C10: with an absent or empty monitored-variable list, the constructor
substitutes the fixed default list of 15 names; the monitored list is never
empty; the device id is always `"[ups_name]server_id"`. -/
theorem ups_new_defaults_and_id (ups_name server_id : String)
    (variables_to_monitor : Option (List String)) :
    ((variables_to_monitor = none ∨ variables_to_monitor = some []) →
      (UninterruptiblePowerSupply.new ups_name server_id
          variables_to_monitor).variables_to_monitor
        = ["battery.charge", "battery.charge.low", "battery.runtime",
           "battery.runtime.low", "input.frequency", "input.voltage",
           "output.frequency", "output.frequency.nominal", "output.voltage",
           "output.voltage.nominal", "ups.load", "ups.power",
           "ups.power.nominal", "ups.realpower", "ups.status"])
    ∧ (UninterruptiblePowerSupply.new ups_name server_id
        variables_to_monitor).variables_to_monitor ≠ []
    ∧ (UninterruptiblePowerSupply.new ups_name server_id
        variables_to_monitor).meta.hw.id = "[" ++ ups_name ++ "]" ++ server_id := by
  refine ⟨?_, ?_, rfl⟩
  · rintro (rfl | rfl) <;> rfl
  · show (if (variables_to_monitor.getD []).isEmpty then defaultVariablesToMonitor
      else variables_to_monitor.getD []) ≠ []
    by_cases he : (variables_to_monitor.getD []).isEmpty
    · rw [if_pos he]
      decide
    · rw [if_neg he]
      intro hc
      apply he
      rw [hc]
      rfl

/-- C10 witness: construction with no configured variables. -/
theorem ups_new_defaults_and_id_witness :
    (UninterruptiblePowerSupply.new "ups1" "srv" none).variables_to_monitor
      = ["battery.charge", "battery.charge.low", "battery.runtime",
         "battery.runtime.low", "input.frequency", "input.voltage",
         "output.frequency", "output.frequency.nominal", "output.voltage",
         "output.voltage.nominal", "ups.load", "ups.power",
         "ups.power.nominal", "ups.realpower", "ups.status"]
    ∧ (UninterruptiblePowerSupply.new "ups1" "srv" none).variables_to_monitor ≠ []
    ∧ (UninterruptiblePowerSupply.new "ups1" "srv" none).meta.hw.id = "[ups1]srv" := by
  have h := ups_new_defaults_and_id "ups1" "srv" none
  refine ⟨h.1 (Or.inl rfl), h.2.1, ?_⟩
  rw [h.2.2]
  decide

/-! ### C3: reconnect backoff -/

theorem nutRunLoop_cons (cooldown : ℕ) (s : NutClientState) (o : Bool)
    (os : List Bool) :
    nutRunLoop cooldown s (o :: os) = nutRunLoop cooldown (nutLoopIter cooldown s o) os := rfl

theorem nutRunLoop_fa (cooldown : ℕ) (N : ℕ) :
    ∀ s : NutClientState,
      (nutRunLoop cooldown s (List.replicate N false)).failed_attempts
        = s.failed_attempts + N := by
  induction N with
  | zero => intro s; rfl
  | succ n ih =>
      intro s
      rw [List.replicate_succ, nutRunLoop_cons, ih]
      show (s.failed_attempts + 1) + n = s.failed_attempts + (n + 1)
      omega

/-- C3: after `N ≥ 1` consecutive connect failures from a fresh state the
failure counter reads `N`, so the next reconnect attempt happens exactly
`min(cooldown * N, 3600 s)` after the `N`-th failure (the state clock is
the last failure's time, since only the backoff sleeps advance it, and every
iteration's attempt happens at `nutNextAttemptTime`); a successful connect
resets the counter to 0 and stores the session. -/
theorem nut_backoff_after_failures (cooldown t0 N : ℕ) (_hN : 1 ≤ N) :
    (nutRunLoop cooldown ⟨t0, 0, false⟩ (List.replicate N false)).failed_attempts = N
    ∧ nutNextAttemptTime cooldown
        (nutRunLoop cooldown ⟨t0, 0, false⟩ (List.replicate N false))
      = (nutRunLoop cooldown ⟨t0, 0, false⟩ (List.replicate N false)).time
          + min (cooldown * N) 3600
    ∧ (∀ (s : NutClientState) (o : Bool),
        (nutLoopIter cooldown s o).time = nutNextAttemptTime cooldown s)
    ∧ (∀ s : NutClientState, (nutConnect true s).failed_attempts = 0
        ∧ (nutConnect true s).connected = true) := by
  have hfa := nutRunLoop_fa cooldown N ⟨t0, 0, false⟩
  rw [show (⟨t0, 0, false⟩ : NutClientState).failed_attempts = 0 from rfl,
    Nat.zero_add] at hfa
  refine ⟨hfa, ?_, ?_, ?_⟩
  · unfold nutNextAttemptTime backoffSleep
    rw [hfa]
  · intro s o
    cases o <;> rfl
  · intro s
    exact ⟨rfl, rfl⟩

/-- C3 witness: two consecutive failures with a 10-second base cooldown. -/
theorem nut_backoff_after_failures_witness :
    (nutRunLoop 10 ⟨0, 0, false⟩ (List.replicate 2 false)).failed_attempts = 2
    ∧ nutNextAttemptTime 10 (nutRunLoop 10 ⟨0, 0, false⟩ (List.replicate 2 false))
        = (nutRunLoop 10 ⟨0, 0, false⟩ (List.replicate 2 false)).time + min (10 * 2) 3600
    ∧ (nutConnect true ⟨0, 5, false⟩).failed_attempts = 0
    ∧ (nutConnect true ⟨0, 5, false⟩).connected = true := by
  have h := nut_backoff_after_failures 10 0 2 (by decide)
  exact ⟨h.1, h.2.1, (h.2.2.2 ⟨0, 5, false⟩).1, (h.2.2.2 ⟨0, 5, false⟩).2⟩

/-! ### C4: per-endpoint send cooldown -/

theorem activeSenderSends_cons (cooldown : ℕ) (last_sent : Option ℕ) (t : ℕ)
    (ts : List ℕ) :
    activeSenderSends cooldown last_sent (t :: ts)
      = (if (senderStep cooldown last_sent t).1
          then t :: activeSenderSends cooldown (senderStep cooldown last_sent t).2 ts
          else activeSenderSends cooldown (senderStep cooldown last_sent t).2 ts) := rfl

theorem activeSenderSends_spaced (cooldown : ℕ) :
    ∀ (ts : List ℕ) (t0 : ℕ), spacedApart cooldown t0 ts = true →
      activeSenderSends cooldown (some t0) ts = ts := by
  intro ts
  induction ts with
  | nil => intro t0 _; rfl
  | cons t ts ih =>
      intro t0 h
      unfold spacedApart at h
      rw [Bool.and_eq_true, decide_eq_true_eq] at h
      obtain ⟨h1, h2⟩ := h
      have hstep : senderStep cooldown (some t0) t = (true, some t) := by
        show (if t - t0 ≤ cooldown then ((false, some t0) : Bool × Option ℕ)
          else (true, some t)) = (true, some t)
        rw [if_neg (by omega : ¬(t - t0 ≤ cooldown))]
      rw [activeSenderSends_cons, hstep]
      show t :: activeSenderSends cooldown (some t) ts = t :: ts
      rw [ih t h2]

/-- C4: with the effective cooldown `max(configured, 1 s)`: a notification
arriving strictly less than the cooldown after the last send is skipped
entirely (no send, `last_sent` unchanged); consequently two notifications
within less than the cooldown produce exactly one send, notifications spaced
more than the cooldown apart each produce a send, and the effective cooldown
is at least one second. -/
theorem active_sender_cooldown (config_cooldown : ℕ) :
    (∀ t now, now - t < effectiveCooldown config_cooldown →
      senderStep (effectiveCooldown config_cooldown) (some t) now = (false, some t))
    ∧ (∀ t1 t2, t1 ≤ t2 → t2 - t1 < effectiveCooldown config_cooldown →
      activeSenderSends (effectiveCooldown config_cooldown) none [t1, t2] = [t1])
    ∧ (∀ t0 ts, spacedApart (effectiveCooldown config_cooldown) t0 ts = true →
      activeSenderSends (effectiveCooldown config_cooldown) none (t0 :: ts) = t0 :: ts)
    ∧ 1000 ≤ effectiveCooldown config_cooldown := by
  refine ⟨?_, ?_, ?_, le_max_right _ _⟩
  · intro t now h
    show (if now - t ≤ effectiveCooldown config_cooldown
      then ((false, some t) : Bool × Option ℕ) else (true, some now)) = (false, some t)
    rw [if_pos (Nat.le_of_lt h)]
  · intro t1 t2 h12 hlt
    have hs2 : senderStep (effectiveCooldown config_cooldown) (some t1) t2
        = (false, some t1) := by
      show (if t2 - t1 ≤ effectiveCooldown config_cooldown
        then ((false, some t1) : Bool × Option ℕ) else (true, some t2)) = (false, some t1)
      rw [if_pos (Nat.le_of_lt hlt)]
    rw [activeSenderSends_cons]
    show t1 :: activeSenderSends (effectiveCooldown config_cooldown) (some t1) [t2] = [t1]
    rw [activeSenderSends_cons, hs2]
    rfl
  · intro t0 ts h
    rw [activeSenderSends_cons]
    show t0 :: activeSenderSends (effectiveCooldown config_cooldown) (some t0) ts = t0 :: ts
    rw [activeSenderSends_spaced (effectiveCooldown config_cooldown) ts t0 h]

/-- C4 witness: cooldown floored to 1000 ms; a second notification 500 ms
after the first is skipped, notifications 2000 and 1500 ms apart each
send. -/
theorem active_sender_cooldown_witness :
    senderStep (effectiveCooldown 0) (some 0) 500 = (false, some 0)
    ∧ activeSenderSends (effectiveCooldown 0) none [0, 500] = [0]
    ∧ activeSenderSends (effectiveCooldown 0) none [0, 2000, 3500] = [0, 2000, 3500]
    ∧ 1000 ≤ effectiveCooldown 0 := by
  have h := active_sender_cooldown 0
  exact ⟨h.1 0 500 (by decide), h.2.1 0 500 (by decide) (by decide),
    h.2.2.1 0 [2000, 3500] (by decide), h.2.2.2⟩

end UDS
